import Mathlib

/-!
Verification of the TTS API server (`src/server.js`).

Modelling conventions:
* Node `Buffer` values are modelled as `List Nat` of byte values (each < 256 in
  practice; the writes below only ever store values < 256).
* Base64 encoding/decoding (`Buffer.from(s, 'base64')` / `buf.toString('base64')`)
  is a bijection between base64 strings and byte buffers, so audio payloads are
  modelled at the byte level throughout: `pcmToWav` below is the byte-level core
  of the source function, i.e. the composition decode ∘ source ∘ encode.
* `Buffer.writeUInt32LE` throws `ERR_OUT_OF_RANGE` for values above 4294967295;
  the model returns `none` in that case.  (This branch is unreachable in the
  real process: a V8 string, hence the base64 input, is far shorter than 2^32.)
-/

/-- Little-endian byte list of a 16-bit value, as stored by `Buffer.writeUInt16LE`. -/
def u16le (v : Nat) : List Nat := [v % 256, v / 256 % 256]

/-- Little-endian byte list of a 32-bit value, as stored by `Buffer.writeUInt32LE`. -/
def u32le (v : Nat) : List Nat :=
  [v % 256, v / 256 % 256, v / 65536 % 256, v / 16777216 % 256]

/-- Overwrite `bytes` into `buf` starting at `offset`: the effect of one
`Buffer.write*` call of `pcmToWav` (each call stays inside the buffer). -/
def writeBytes (buf : List Nat) (offset : Nat) (bytes : List Nat) : List Nat :=
  buf.take offset ++ bytes ++ buf.drop (offset + bytes.length)

/-- The function `pcmToWav` of `src/server.js` (lines 41-76) at the byte level.
`Buffer.alloc` zero-fills; `buf.write(s, off)` stores the ASCII bytes of `s`
(`'RIFF'` = 82,73,70,70; `'WAVE'` = 87,65,86,69; `'fmt '` = 102,109,116,32;
`'data'` = 100,97,116,97); `pcmBuffer.copy(wavBuffer, 44)` copies the whole
PCM buffer to offset 44.  `none` models the `ERR_OUT_OF_RANGE` throw of
`writeUInt32LE` (largest written value is `headerSize + dataSize - 8`). -/
def pcmToWav (pcmBuffer : List Nat) : Option (List Nat) :=
  let sampleRate := 24000
  let numChannels := 1
  let bitsPerSample := 16
  let byteRate := sampleRate * numChannels * (bitsPerSample / 8)
  let blockAlign := numChannels * (bitsPerSample / 8)
  let dataSize := pcmBuffer.length
  let headerSize := 44
  if headerSize + dataSize - 8 ≤ 4294967295 then
    let b0 := List.replicate (headerSize + dataSize) 0
    let b1 := writeBytes b0 0 [82, 73, 70, 70]
    let b2 := writeBytes b1 4 (u32le (headerSize + dataSize - 8))
    let b3 := writeBytes b2 8 [87, 65, 86, 69]
    let b4 := writeBytes b3 12 [102, 109, 116, 32]
    let b5 := writeBytes b4 16 (u32le 16)
    let b6 := writeBytes b5 20 (u16le 1)
    let b7 := writeBytes b6 22 (u16le numChannels)
    let b8 := writeBytes b7 24 (u32le sampleRate)
    let b9 := writeBytes b8 28 (u32le byteRate)
    let b10 := writeBytes b9 32 (u16le blockAlign)
    let b11 := writeBytes b10 34 (u16le bitsPerSample)
    let b12 := writeBytes b11 36 [100, 97, 116, 97]
    let b13 := writeBytes b12 40 (u32le dataSize)
    let b14 := writeBytes b13 headerSize pcmBuffer
    some b14
  else none

/-- The 44-byte header that `pcmToWav` produces for PCM data of length `L`:
`RIFF`, total size (36+L, little-endian), `WAVE`, `fmt `, subchunk size 16,
format 1 (PCM), 1 channel, rate 24000, byte rate 48000, block align 2,
16 bits per sample, `data`, data size L (little-endian). -/
def wavHeader (L : Nat) : List Nat :=
  [82, 73, 70, 70,
   (36 + L) % 256, (36 + L) / 256 % 256, (36 + L) / 65536 % 256,
   (36 + L) / 16777216 % 256,
   87, 65, 86, 69, 102, 109, 116, 32,
   16, 0, 0, 0,
   1, 0,
   1, 0,
   192, 93, 0, 0,
   128, 187, 0, 0,
   2, 0,
   16, 0,
   100, 97, 116, 97,
   L % 256, L / 256 % 256, L / 65536 % 256, L / 16777216 % 256]

/-- Byte of a buffer at index `i` (0 when out of range). -/
def byteAt (buf : List Nat) (i : Nat) : Nat := buf.getD i 0

/-- Read a 32-bit little-endian field at `offset`, as `Buffer.readUInt32LE` would. -/
def readU32le (buf : List Nat) (offset : Nat) : Nat :=
  byteAt buf offset + 256 * byteAt buf (offset + 1) +
    65536 * byteAt buf (offset + 2) + 16777216 * byteAt buf (offset + 3)

/-- Read a 16-bit little-endian field at `offset`, as `Buffer.readUInt16LE` would. -/
def readU16le (buf : List Nat) (offset : Nat) : Nat :=
  byteAt buf offset + 256 * byteAt buf (offset + 1)

theorem pcmToWav_eq (pcm : List Nat) (h : 36 + pcm.length ≤ 4294967295) :
    pcmToWav pcm = some (wavHeader pcm.length ++ pcm) := by
  have hsplit : List.replicate (44 + pcm.length) (0 : Nat)
      = [0, 0, 0, 0, 0, 0, 0, 0, 0, 0, 0, 0, 0, 0, 0, 0, 0, 0, 0, 0, 0, 0,
          0, 0, 0, 0, 0, 0, 0, 0, 0, 0, 0, 0, 0, 0, 0, 0, 0, 0, 0, 0, 0, 0]
        ++ List.replicate pcm.length 0 := by
    rw [List.replicate_add]; rfl
  have h36 : 44 + pcm.length - 8 = 36 + pcm.length := by omega
  have e1 : writeBytes (
      [0, 0, 0, 0, 0, 0, 0, 0, 0, 0, 0, 0, 0, 0, 0, 0, 0, 0, 0, 0, 0, 0, 0, 0, 0, 0, 0, 0, 0, 0,
      0, 0, 0, 0, 0, 0, 0, 0, 0, 0, 0, 0, 0, 0]
      ++ List.replicate pcm.length 0) 0 [82, 73, 70, 70] = 
      [82, 73, 70, 70, 0, 0, 0, 0, 0, 0, 0, 0, 0, 0, 0, 0, 0, 0, 0, 0, 0, 0, 0, 0, 0, 0, 0, 0, 0,
      0, 0, 0, 0, 0, 0, 0, 0, 0, 0, 0, 0, 0, 0, 0]
      ++ List.replicate pcm.length 0 := rfl
  have e2 : writeBytes (
      [82, 73, 70, 70, 0, 0, 0, 0, 0, 0, 0, 0, 0, 0, 0, 0, 0, 0, 0, 0, 0, 0, 0, 0, 0, 0, 0, 0, 0,
      0, 0, 0, 0, 0, 0, 0, 0, 0, 0, 0, 0, 0, 0, 0]
      ++ List.replicate pcm.length 0) 4 (u32le (36 + pcm.length)) = 
      [82, 73, 70, 70, (36 + pcm.length) % 256, (36 + pcm.length) / 256 % 256,
      (36 + pcm.length) / 65536 % 256, (36 + pcm.length) / 16777216 % 256, 0, 0, 0, 0, 0, 0, 0,
      0, 0, 0, 0, 0, 0, 0, 0, 0, 0, 0, 0, 0, 0, 0, 0, 0, 0, 0, 0, 0, 0, 0, 0, 0, 0, 0, 0, 0]
      ++ List.replicate pcm.length 0 := rfl
  have e3 : writeBytes (
      [82, 73, 70, 70, (36 + pcm.length) % 256, (36 + pcm.length) / 256 % 256,
      (36 + pcm.length) / 65536 % 256, (36 + pcm.length) / 16777216 % 256, 0, 0, 0, 0, 0, 0, 0,
      0, 0, 0, 0, 0, 0, 0, 0, 0, 0, 0, 0, 0, 0, 0, 0, 0, 0, 0, 0, 0, 0, 0, 0, 0, 0, 0, 0, 0]
      ++ List.replicate pcm.length 0) 8 [87, 65, 86, 69] = 
      [82, 73, 70, 70, (36 + pcm.length) % 256, (36 + pcm.length) / 256 % 256,
      (36 + pcm.length) / 65536 % 256, (36 + pcm.length) / 16777216 % 256, 87, 65, 86, 69, 0, 0,
      0, 0, 0, 0, 0, 0, 0, 0, 0, 0, 0, 0, 0, 0, 0, 0, 0, 0, 0, 0, 0, 0, 0, 0, 0, 0, 0, 0, 0, 0]
      ++ List.replicate pcm.length 0 := rfl
  have e4 : writeBytes (
      [82, 73, 70, 70, (36 + pcm.length) % 256, (36 + pcm.length) / 256 % 256,
      (36 + pcm.length) / 65536 % 256, (36 + pcm.length) / 16777216 % 256, 87, 65, 86, 69, 0, 0,
      0, 0, 0, 0, 0, 0, 0, 0, 0, 0, 0, 0, 0, 0, 0, 0, 0, 0, 0, 0, 0, 0, 0, 0, 0, 0, 0, 0, 0, 0]
      ++ List.replicate pcm.length 0) 12 [102, 109, 116, 32] = 
      [82, 73, 70, 70, (36 + pcm.length) % 256, (36 + pcm.length) / 256 % 256,
      (36 + pcm.length) / 65536 % 256, (36 + pcm.length) / 16777216 % 256, 87, 65, 86, 69, 102,
      109, 116, 32, 0, 0, 0, 0, 0, 0, 0, 0, 0, 0, 0, 0, 0, 0, 0, 0, 0, 0, 0, 0, 0, 0, 0, 0, 0, 0,
      0, 0]
      ++ List.replicate pcm.length 0 := rfl
  have e5 : writeBytes (
      [82, 73, 70, 70, (36 + pcm.length) % 256, (36 + pcm.length) / 256 % 256,
      (36 + pcm.length) / 65536 % 256, (36 + pcm.length) / 16777216 % 256, 87, 65, 86, 69, 102,
      109, 116, 32, 0, 0, 0, 0, 0, 0, 0, 0, 0, 0, 0, 0, 0, 0, 0, 0, 0, 0, 0, 0, 0, 0, 0, 0, 0, 0,
      0, 0]
      ++ List.replicate pcm.length 0) 16 (u32le 16) = 
      [82, 73, 70, 70, (36 + pcm.length) % 256, (36 + pcm.length) / 256 % 256,
      (36 + pcm.length) / 65536 % 256, (36 + pcm.length) / 16777216 % 256, 87, 65, 86, 69, 102,
      109, 116, 32, 16, 0, 0, 0, 0, 0, 0, 0, 0, 0, 0, 0, 0, 0, 0, 0, 0, 0, 0, 0, 0, 0, 0, 0, 0,
      0, 0, 0]
      ++ List.replicate pcm.length 0 := rfl
  have e6 : writeBytes (
      [82, 73, 70, 70, (36 + pcm.length) % 256, (36 + pcm.length) / 256 % 256,
      (36 + pcm.length) / 65536 % 256, (36 + pcm.length) / 16777216 % 256, 87, 65, 86, 69, 102,
      109, 116, 32, 16, 0, 0, 0, 0, 0, 0, 0, 0, 0, 0, 0, 0, 0, 0, 0, 0, 0, 0, 0, 0, 0, 0, 0, 0,
      0, 0, 0]
      ++ List.replicate pcm.length 0) 20 (u16le 1) = 
      [82, 73, 70, 70, (36 + pcm.length) % 256, (36 + pcm.length) / 256 % 256,
      (36 + pcm.length) / 65536 % 256, (36 + pcm.length) / 16777216 % 256, 87, 65, 86, 69, 102,
      109, 116, 32, 16, 0, 0, 0, 1, 0, 0, 0, 0, 0, 0, 0, 0, 0, 0, 0, 0, 0, 0, 0, 0, 0, 0, 0, 0,
      0, 0, 0]
      ++ List.replicate pcm.length 0 := rfl
  have e7 : writeBytes (
      [82, 73, 70, 70, (36 + pcm.length) % 256, (36 + pcm.length) / 256 % 256,
      (36 + pcm.length) / 65536 % 256, (36 + pcm.length) / 16777216 % 256, 87, 65, 86, 69, 102,
      109, 116, 32, 16, 0, 0, 0, 1, 0, 0, 0, 0, 0, 0, 0, 0, 0, 0, 0, 0, 0, 0, 0, 0, 0, 0, 0, 0,
      0, 0, 0]
      ++ List.replicate pcm.length 0) 22 (u16le 1) = 
      [82, 73, 70, 70, (36 + pcm.length) % 256, (36 + pcm.length) / 256 % 256,
      (36 + pcm.length) / 65536 % 256, (36 + pcm.length) / 16777216 % 256, 87, 65, 86, 69, 102,
      109, 116, 32, 16, 0, 0, 0, 1, 0, 1, 0, 0, 0, 0, 0, 0, 0, 0, 0, 0, 0, 0, 0, 0, 0, 0, 0, 0,
      0, 0, 0]
      ++ List.replicate pcm.length 0 := rfl
  have e8 : writeBytes (
      [82, 73, 70, 70, (36 + pcm.length) % 256, (36 + pcm.length) / 256 % 256,
      (36 + pcm.length) / 65536 % 256, (36 + pcm.length) / 16777216 % 256, 87, 65, 86, 69, 102,
      109, 116, 32, 16, 0, 0, 0, 1, 0, 1, 0, 0, 0, 0, 0, 0, 0, 0, 0, 0, 0, 0, 0, 0, 0, 0, 0, 0,
      0, 0, 0]
      ++ List.replicate pcm.length 0) 24 (u32le 24000) = 
      [82, 73, 70, 70, (36 + pcm.length) % 256, (36 + pcm.length) / 256 % 256,
      (36 + pcm.length) / 65536 % 256, (36 + pcm.length) / 16777216 % 256, 87, 65, 86, 69, 102,
      109, 116, 32, 16, 0, 0, 0, 1, 0, 1, 0, 192, 93, 0, 0, 0, 0, 0, 0, 0, 0, 0, 0, 0, 0, 0, 0,
      0, 0, 0, 0]
      ++ List.replicate pcm.length 0 := rfl
  have e9 : writeBytes (
      [82, 73, 70, 70, (36 + pcm.length) % 256, (36 + pcm.length) / 256 % 256,
      (36 + pcm.length) / 65536 % 256, (36 + pcm.length) / 16777216 % 256, 87, 65, 86, 69, 102,
      109, 116, 32, 16, 0, 0, 0, 1, 0, 1, 0, 192, 93, 0, 0, 0, 0, 0, 0, 0, 0, 0, 0, 0, 0, 0, 0,
      0, 0, 0, 0]
      ++ List.replicate pcm.length 0) 28 (u32le (24000 * 1 * (16 / 8))) = 
      [82, 73, 70, 70, (36 + pcm.length) % 256, (36 + pcm.length) / 256 % 256,
      (36 + pcm.length) / 65536 % 256, (36 + pcm.length) / 16777216 % 256, 87, 65, 86, 69, 102,
      109, 116, 32, 16, 0, 0, 0, 1, 0, 1, 0, 192, 93, 0, 0, 128, 187, 0, 0, 0, 0, 0, 0, 0, 0, 0,
      0, 0, 0, 0, 0]
      ++ List.replicate pcm.length 0 := rfl
  have e10 : writeBytes (
      [82, 73, 70, 70, (36 + pcm.length) % 256, (36 + pcm.length) / 256 % 256,
      (36 + pcm.length) / 65536 % 256, (36 + pcm.length) / 16777216 % 256, 87, 65, 86, 69, 102,
      109, 116, 32, 16, 0, 0, 0, 1, 0, 1, 0, 192, 93, 0, 0, 128, 187, 0, 0, 0, 0, 0, 0, 0, 0, 0,
      0, 0, 0, 0, 0]
      ++ List.replicate pcm.length 0) 32 (u16le (1 * (16 / 8))) = 
      [82, 73, 70, 70, (36 + pcm.length) % 256, (36 + pcm.length) / 256 % 256,
      (36 + pcm.length) / 65536 % 256, (36 + pcm.length) / 16777216 % 256, 87, 65, 86, 69, 102,
      109, 116, 32, 16, 0, 0, 0, 1, 0, 1, 0, 192, 93, 0, 0, 128, 187, 0, 0, 2, 0, 0, 0, 0, 0, 0,
      0, 0, 0, 0, 0]
      ++ List.replicate pcm.length 0 := rfl
  have e11 : writeBytes (
      [82, 73, 70, 70, (36 + pcm.length) % 256, (36 + pcm.length) / 256 % 256,
      (36 + pcm.length) / 65536 % 256, (36 + pcm.length) / 16777216 % 256, 87, 65, 86, 69, 102,
      109, 116, 32, 16, 0, 0, 0, 1, 0, 1, 0, 192, 93, 0, 0, 128, 187, 0, 0, 2, 0, 0, 0, 0, 0, 0,
      0, 0, 0, 0, 0]
      ++ List.replicate pcm.length 0) 34 (u16le 16) = 
      [82, 73, 70, 70, (36 + pcm.length) % 256, (36 + pcm.length) / 256 % 256,
      (36 + pcm.length) / 65536 % 256, (36 + pcm.length) / 16777216 % 256, 87, 65, 86, 69, 102,
      109, 116, 32, 16, 0, 0, 0, 1, 0, 1, 0, 192, 93, 0, 0, 128, 187, 0, 0, 2, 0, 16, 0, 0, 0, 0,
      0, 0, 0, 0, 0]
      ++ List.replicate pcm.length 0 := rfl
  have e12 : writeBytes (
      [82, 73, 70, 70, (36 + pcm.length) % 256, (36 + pcm.length) / 256 % 256,
      (36 + pcm.length) / 65536 % 256, (36 + pcm.length) / 16777216 % 256, 87, 65, 86, 69, 102,
      109, 116, 32, 16, 0, 0, 0, 1, 0, 1, 0, 192, 93, 0, 0, 128, 187, 0, 0, 2, 0, 16, 0, 0, 0, 0,
      0, 0, 0, 0, 0]
      ++ List.replicate pcm.length 0) 36 [100, 97, 116, 97] = 
      [82, 73, 70, 70, (36 + pcm.length) % 256, (36 + pcm.length) / 256 % 256,
      (36 + pcm.length) / 65536 % 256, (36 + pcm.length) / 16777216 % 256, 87, 65, 86, 69, 102,
      109, 116, 32, 16, 0, 0, 0, 1, 0, 1, 0, 192, 93, 0, 0, 128, 187, 0, 0, 2, 0, 16, 0, 100, 97,
      116, 97, 0, 0, 0, 0]
      ++ List.replicate pcm.length 0 := rfl
  have e13 : writeBytes (
      [82, 73, 70, 70, (36 + pcm.length) % 256, (36 + pcm.length) / 256 % 256,
      (36 + pcm.length) / 65536 % 256, (36 + pcm.length) / 16777216 % 256, 87, 65, 86, 69, 102,
      109, 116, 32, 16, 0, 0, 0, 1, 0, 1, 0, 192, 93, 0, 0, 128, 187, 0, 0, 2, 0, 16, 0, 100, 97,
      116, 97, 0, 0, 0, 0]
      ++ List.replicate pcm.length 0) 40 (u32le pcm.length) = 
      [82, 73, 70, 70, (36 + pcm.length) % 256, (36 + pcm.length) / 256 % 256,
      (36 + pcm.length) / 65536 % 256, (36 + pcm.length) / 16777216 % 256, 87, 65, 86, 69, 102,
      109, 116, 32, 16, 0, 0, 0, 1, 0, 1, 0, 192, 93, 0, 0, 128, 187, 0, 0, 2, 0, 16, 0, 100, 97,
      116, 97, pcm.length % 256, pcm.length / 256 % 256, pcm.length / 65536 % 256,
      pcm.length / 16777216 % 256]
      ++ List.replicate pcm.length 0 := rfl
  simp only [pcmToWav, h36, hsplit]
  rw [if_pos h]
  rw [e1, e2, e3, e4, e5, e6, e7, e8, e9, e10, e11, e12, e13]
  rw [writeBytes, List.take_left']
  · rw [List.drop_eq_nil_of_le]
    · simp only [List.append_nil]
      rfl
    · simp only [List.length_append, List.length_cons, List.length_nil,
        List.length_replicate]
      omega
  · rfl

theorem u32_roundtrip (v : Nat) (h : v < 4294967296) :
    v % 256 + 256 * (v / 256 % 256) + 65536 * (v / 65536 % 256)
      + 16777216 * (v / 16777216 % 256) = v := by
  omega

/-- C1: for every input PCM byte buffer (any length, odd included, whenever the
32-bit size fields are representable, as they always are for real inputs), the
encoder output has length L+44, carries the input bytes verbatim at offsets
[44, 44+L), declares data-size L at offset 40 and total-size L+36 at offset 4,
both little-endian. -/
theorem pcmToWav_output_layout (pcm : List Nat)
    (h : 36 + pcm.length ≤ 4294967295) :
    ∃ wav, pcmToWav pcm = some wav ∧
      wav.length = pcm.length + 44 ∧
      wav.drop 44 = pcm ∧
      readU32le wav 40 = pcm.length ∧
      readU32le wav 4 = pcm.length + 36 := by
  refine ⟨wavHeader pcm.length ++ pcm, pcmToWav_eq pcm h, ?_, ?_, ?_, ?_⟩
  · exact rfl
  · exact List.drop_left' rfl
  · have e : readU32le (wavHeader pcm.length ++ pcm) 40
        = pcm.length % 256 + 256 * (pcm.length / 256 % 256)
          + 65536 * (pcm.length / 65536 % 256)
          + 16777216 * (pcm.length / 16777216 % 256) := rfl
    rw [e]; omega
  · have e : readU32le (wavHeader pcm.length ++ pcm) 4
        = (36 + pcm.length) % 256 + 256 * ((36 + pcm.length) / 256 % 256)
          + 65536 * ((36 + pcm.length) / 65536 % 256)
          + 16777216 * ((36 + pcm.length) / 16777216 % 256) := rfl
    rw [e]; omega

/-- Witness for C1 at the odd-length concrete input [1, 2, 3]. -/
theorem pcmToWav_output_layout_witness :
    36 + ([1, 2, 3] : List Nat).length ≤ 4294967295 ∧
      ∃ wav, pcmToWav [1, 2, 3] = some wav ∧
        wav.length = ([1, 2, 3] : List Nat).length + 44 ∧
        wav.drop 44 = [1, 2, 3] ∧
        readU32le wav 40 = ([1, 2, 3] : List Nat).length ∧
        readU32le wav 4 = ([1, 2, 3] : List Nat).length + 36 :=
  ⟨by decide, pcmToWav_output_layout [1, 2, 3] (by decide)⟩

/-- C8 counterexample: for the empty PCM buffer the output has length 44 but
the total-size field at offset 4 holds 36 (the RIFF convention stores the
buffer length minus 8), so the declared total size does not equal the length
of the whole output buffer. -/
theorem wav_total_size_counterexample :
    ∃ w, pcmToWav [] = some w ∧ readU32le w 4 = 36 ∧ w.length = 44 ∧
      readU32le w 4 ≠ w.length := by
  have e := pcmToWav_eq [] (by decide)
  refine ⟨wavHeader 0 ++ [], e, by decide, by decide, by decide⟩

/-- C8 amended: the data-size field equals the PCM region length exactly; the
total-size field equals the whole buffer length minus 8 (RIFF stores the chunk
size excluding the 8-byte `RIFF`+size preamble); all integer fields are stored
little-endian (reading them back little-endian yields the declared format
values). -/
theorem wav_header_size_invariants (pcm : List Nat)
    (h : 36 + pcm.length ≤ 4294967295) :
    ∃ w, pcmToWav pcm = some w ∧
      readU32le w 4 + 8 = w.length ∧
      readU32le w 40 = (w.drop 44).length ∧
      readU32le w 16 = 16 ∧
      readU16le w 20 = 1 ∧
      readU16le w 22 = 1 ∧
      readU32le w 24 = 24000 ∧
      readU32le w 28 = 48000 ∧
      readU16le w 32 = 2 ∧
      readU16le w 34 = 16 := by
  refine ⟨wavHeader pcm.length ++ pcm, pcmToWav_eq pcm h,
    ?_, ?_, rfl, rfl, rfl, ?_, ?_, rfl, rfl⟩
  · have e : readU32le (wavHeader pcm.length ++ pcm) 4
        = (36 + pcm.length) % 256 + 256 * ((36 + pcm.length) / 256 % 256)
          + 65536 * ((36 + pcm.length) / 65536 % 256)
          + 16777216 * ((36 + pcm.length) / 16777216 % 256) := rfl
    have hlen : (wavHeader pcm.length ++ pcm).length = pcm.length + 44 := rfl
    rw [e, hlen]; omega
  · have e : readU32le (wavHeader pcm.length ++ pcm) 40
        = pcm.length % 256 + 256 * (pcm.length / 256 % 256)
          + 65536 * (pcm.length / 65536 % 256)
          + 16777216 * (pcm.length / 16777216 % 256) := rfl
    have hd : (wavHeader pcm.length ++ pcm).drop 44 = pcm := List.drop_left' rfl
    rw [e, hd]; omega
  · have b0 : byteAt (wavHeader pcm.length ++ pcm) 24 = 192 := rfl
    have b1 : byteAt (wavHeader pcm.length ++ pcm) (24 + 1) = 93 := rfl
    have b2 : byteAt (wavHeader pcm.length ++ pcm) (24 + 2) = 0 := rfl
    have b3 : byteAt (wavHeader pcm.length ++ pcm) (24 + 3) = 0 := rfl
    rw [readU32le, b0, b1, b2, b3]
  · have b0 : byteAt (wavHeader pcm.length ++ pcm) 28 = 128 := rfl
    have b1 : byteAt (wavHeader pcm.length ++ pcm) (28 + 1) = 187 := rfl
    have b2 : byteAt (wavHeader pcm.length ++ pcm) (28 + 2) = 0 := rfl
    have b3 : byteAt (wavHeader pcm.length ++ pcm) (28 + 3) = 0 := rfl
    rw [readU32le, b0, b1, b2, b3]

/-- Witness for the amended C8 statement at the concrete input [5, 6]. -/
theorem wav_header_size_invariants_witness :
    36 + ([5, 6] : List Nat).length ≤ 4294967295 ∧
      ∃ w, pcmToWav [5, 6] = some w ∧
        readU32le w 4 + 8 = w.length ∧
        readU32le w 40 = (w.drop 44).length ∧
        readU32le w 16 = 16 ∧
        readU16le w 20 = 1 ∧
        readU16le w 22 = 1 ∧
        readU32le w 24 = 24000 ∧
        readU32le w 28 = 48000 ∧
        readU16le w 32 = 2 ∧
        readU16le w 34 = 16 :=
  ⟨by decide, wav_header_size_invariants [5, 6] (by decide)⟩

/-- The OWN properties of the object literal `VOICE_CONFIG` of `src/server.js`
(lines 94-105): the two rows and their three gender keys; `none` models a key
that is not an own property (the prototype chain is handled separately in
`voiceConfigLookup`). -/
def VOICE_CONFIG (contentLanguage gender : String) : Option String :=
  if contentLanguage = "es-latam" then
    if gender = "male" then some "Sulafat"
    else if gender = "female" then some "Achernar"
    else if gender = "neutral" then some "Aoede"
    else none
  else if contentLanguage = "en" then
    if gender = "male" then some "Sulafat"
    else if gender = "female" then some "Vindemiatrix"
    else if gender = "neutral" then some "Enceladus"
    else none
  else none

/-- The property names every plain JS object inherits from `Object.prototype`
(fixed by ECMAScript, Annex B accessors included).  Accessing any of these on
an object literal hits the prototype chain instead of yielding `undefined`. -/
def OBJECT_PROTO_MEMBERS : List String :=
  ["constructor", "hasOwnProperty", "isPrototypeOf", "propertyIsEnumerable",
   "toLocaleString", "toString", "valueOf", "__defineGetter__",
   "__defineSetter__", "__lookupGetter__", "__lookupSetter__", "__proto__"]

/-- A JS value as far as line 173 of `src/server.js` can observe one:
a string, a function (carrying its ECMAScript-fixed `.name`), the object
`Object.prototype` (the only non-function object reachable here, via
`__proto__`), or `undefined`.  `engineDefined` marks the results of property
accesses on inherited builtin functions that this development deliberately
leaves unspecified — `Object`'s static methods (whose set varies by engine
version), `Function.prototype` members, and the `caller`/`arguments`
accessors that throw on access; no theorem below relies on them. -/
inductive JsValue where
  | str (s : String)
  | fn (name : String)
  | obj
  | engineDefined
  | undefined
deriving DecidableEq

/-- The value a plain object inherits from `Object.prototype` under `name`:
the `Object` constructor (a function named "Object") for `constructor`,
`Object.prototype` itself for the `__proto__` accessor, and the
`Object.prototype` method of that name otherwise. -/
def protoMember (name : String) : JsValue :=
  if name = "constructor" then .fn "Object"
  else if name = "__proto__" then .obj
  else .fn name

/-- Line 173's chained property access `VOICE_CONFIG[contentLanguage]?.[gender]`,
prototype chain included.  First level: an own row, else an inherited
`Object.prototype` member, else `undefined` (and `?.` short-circuits).
Second level: an own voice entry; on a row, or on `Object.prototype` reached
via `__proto__`, any other key falls through to the inherited members or to
`undefined`; on an inherited builtin function, only the ECMAScript-fixed
`name` property is committed (e.g. `Object.name = "Object"`), every other key
being left engine-defined. -/
def voiceConfigLookup (contentLanguage gender : String) : JsValue :=
  if contentLanguage = "es-latam" ∨ contentLanguage = "en" then
    match VOICE_CONFIG contentLanguage gender with
    | some v => .str v
    | none =>
      if gender ∈ OBJECT_PROTO_MEMBERS then protoMember gender else .undefined
  else if contentLanguage ∈ OBJECT_PROTO_MEMBERS then
    match protoMember contentLanguage with
    | .obj => if gender ∈ OBJECT_PROTO_MEMBERS then protoMember gender else .undefined
    | .fn fname => if gender = "name" then .str fname else .engineDefined
    | _ => .undefined
  else .undefined

/-- Line 173: `VOICE_CONFIG[contentLanguage]?.[gender] || 'Aoede'`.  `||`
replaces the falsy results (`undefined`; the empty string, which no lookup
here produces) by the fallback; truthy strings, functions and objects pass
through; the `||` of an engine-defined value is engine-defined too. -/
def resolveVoice (contentLanguage gender : String) : JsValue :=
  match voiceConfigLookup contentLanguage gender with
  | .undefined => .str "Aoede"
  | .str s => if s = "" then .str "Aoede" else .str s
  | .fn fname => .fn fname
  | .obj => .obj
  | .engineDefined => .engineDefined

/-- JS `String.prototype.includes` on character lists: some position of the
haystack starts with the needle. -/
def listIncludes (needle : List Char) : List Char → Bool
  | [] => needle.isEmpty
  | c :: rest => needle.isPrefixOf (c :: rest) || listIncludes needle rest

/-- JS `haystack.includes(needle)` for strings. -/
def strIncludes (haystack needle : String) : Bool :=
  listIncludes needle.data haystack.data

/-- Lines 178-181: the two hardcoded style-instruction phrases, selected by
`contentLanguage === 'es-latam'`. -/
def stylePrompt (contentLanguage : String) : String :=
  if contentLanguage = "es-latam" then
    "Habla en un susurro suave y cercano, con un ritmo muy lento, pausas prolongadas entre frases y un tono cálido tipo ASMR:"
  else
    "Speak in a soft whisper, very slow rhythm, long pauses between phrases, and a warm tone like ASMR:"

/-- Lines 246-251: rewrite of the underlying error message into the
user-facing message of the 500 body. -/
def userMessage (message : String) : String :=
  if strIncludes message "fetch failed" || strIncludes message "ECONNRESET" then
    "Connection to Gemini API failed. Please try again."
  else if strIncludes message "timeout" || strIncludes message "aborted" then
    "Request timed out. The text might be too long."
  else message

/-- C2 counterexample: `contentLanguage = "constructor"` is not in the voice
table, yet with `gender = "name"` line 173 does NOT resolve the fallback
`Aoede`: the property access walks the prototype chain, `VOICE_CONFIG
['constructor']` is the inherited `Object` constructor (truthy), and
`Object['name']` is the non-empty string `"Object"`, so the resolved voice is
`"Object"`. -/
theorem voice_fallback_counterexample :
    ("constructor" : String) ≠ "es-latam" ∧ ("constructor" : String) ≠ "en" ∧
      resolveVoice "constructor" "name" = .str "Object" ∧
      resolveVoice "constructor" "name" ≠ .str "Aoede" := by decide

/-- C2 amended: the tabled pairs resolve as listed (gender default `neutral`
of line 167 makes an unset gender resolve like `neutral`), and for any
contentLanguage that is neither a table key nor one of the twelve property
names inherited from `Object.prototype` the resolved voice is the fallback
`Aoede` regardless of gender; for the inherited names the lookup instead hits
the prototype chain, e.g. ("constructor", "name") resolves `"Object"`. -/
theorem voice_resolution (lang g : String)
    (h1 : lang ≠ "es-latam") (h2 : lang ≠ "en")
    (h3 : lang ∉ OBJECT_PROTO_MEMBERS) :
    resolveVoice lang g = .str "Aoede" ∧
      resolveVoice "es-latam" "male" = .str "Sulafat" ∧
      resolveVoice "es-latam" "female" = .str "Achernar" ∧
      resolveVoice "es-latam" "neutral" = .str "Aoede" ∧
      resolveVoice "es-latam" ((none : Option String).getD "neutral")
        = .str "Aoede" ∧
      resolveVoice "en" "female" = .str "Vindemiatrix" ∧
      resolveVoice "constructor" "name" = .str "Object" := by
  refine ⟨?_, by decide, by decide, by decide, by decide, by decide, by decide⟩
  simp [resolveVoice, voiceConfigLookup, VOICE_CONFIG, h1, h2, h3]

/-- Witness for the amended C2 at the untabled, non-inherited language "fr". -/
theorem voice_resolution_witness :
    ("fr" : String) ≠ "es-latam" ∧ ("fr" : String) ≠ "en" ∧
      ("fr" : String) ∉ OBJECT_PROTO_MEMBERS ∧
      (resolveVoice "fr" "male" = .str "Aoede" ∧
        resolveVoice "es-latam" "male" = .str "Sulafat" ∧
        resolveVoice "es-latam" "female" = .str "Achernar" ∧
        resolveVoice "es-latam" "neutral" = .str "Aoede" ∧
        resolveVoice "es-latam" ((none : Option String).getD "neutral")
          = .str "Aoede" ∧
        resolveVoice "en" "female" = .str "Vindemiatrix" ∧
        resolveVoice "constructor" "name" = .str "Object") :=
  ⟨by decide, by decide, by decide,
    voice_resolution "fr" "male" (by decide) (by decide) (by decide)⟩

/-- Line 22: `REQUEST_TIMEOUT_MS = 300000`. -/
def REQUEST_TIMEOUT_MS : Nat := 300000

/-- The `inlineData` object of an upstream response part.  `data` holds the
decoded payload bytes (`none` models an absent field; the empty list models
the empty base64 string, which is falsy in JS like an absent one). -/
structure InlineData where
  mimeType : Option String
  data : Option (List Nat)
deriving DecidableEq

/-- A part of an upstream candidate; `inlineData` is `none` when the field is
absent (absent is falsy, a present object is truthy). -/
structure ResponsePart where
  inlineData : Option InlineData
deriving DecidableEq

/-- The `content` object of a candidate; `parts` is `none` when absent (an
empty parts array is truthy in JS and passes the line-194 check). -/
structure Content where
  parts : Option (List ResponsePart)
deriving DecidableEq

/-- One candidate of the upstream response. -/
structure Candidate where
  content : Option Content
deriving DecidableEq

/-- The upstream `generateContent` response body. -/
structure GenResponse where
  candidates : Option (List Candidate)
deriving DecidableEq

/-- One outbound call to `generateTTSWithTimeout` (line 190): the submitted
text, the resolved voice, and the deadline.  The request config built inside
`generateTTSWithTimeout` (lines 135-148) carries nothing else derived from the
client request, in particular no style configuration object. -/
structure TTSCall where
  fullText : String
  voiceName : JsValue
  timeoutMs : Nat
deriving DecidableEq

/-- The HTTP response of `POST /synthesize`: 400 with an error body, 200 with
the audio payload, or 500 with an error body. -/
inductive HttpResponse where
  | badRequest (error : String)
  | ok (audioContent : List Nat) (mimeType : String) (voice : JsValue)
      (language : String)
  | serverError (error : String)
deriving DecidableEq

/-- Observable outcome of one request: the HTTP response, the outbound calls
made (in order), and the number of inter-attempt delays performed. -/
structure Outcome where
  response : HttpResponse
  calls : List TTSCall
  delays : Nat
deriving DecidableEq

/-- Lines 192-218: extraction of the audio payload from one successful
upstream response, and the PCM-to-WAV conversion decision.  `Except.error`
carries the message of the `throw`n `Error`; the out-of-range message models
the `ERR_OUT_OF_RANGE` throw of `writeUInt32LE` inside `pcmToWav`
(unreachable for real payload sizes). -/
def extractAudio (response : GenResponse) : Except String (List Nat × String) :=
  match response.candidates.bind List.head? with
  | none => .error "No audio content in response"
  | some candidate =>
    match candidate.content.bind fun content => content.parts with
    | none => .error "No audio content in response"
    | some parts =>
      match ((parts.find? fun part => part.inlineData.isSome).bind
          fun audioPart => audioPart.inlineData : Option InlineData) with
      | none => .error "No audio data found in response"
      | some inline =>
        match inline.data with
        | none => .error "No audio data found in response"
        | some bs =>
          if bs = [] then .error "No audio data found in response"
          else
            let rawMimeType :=
              match inline.mimeType with
              | none => "audio/L16;rate=24000"
              | some m => if m = "" then "audio/L16;rate=24000" else m
            if strIncludes rawMimeType "L16" || strIncludes rawMimeType "pcm" then
              match pcmToWav bs with
              | some wav => .ok (wav, "audio/wav")
              | none => .error "The value of \"value\" is out of range."
            else .ok (bs, rawMimeType)

/-- One attempt of the loop of lines 186-236: either the upstream call throws
(network error, timeout/abort — `Except.error` with the thrown message), or
its response goes through the extraction of lines 192-218. -/
def attemptResult (upstream : Nat → Except String GenResponse) (attempt : Nat) :
    Except String (List Nat × String) :=
  match upstream attempt with
  | .error e => .error e
  | .ok resp => extractAudio resp

/-- The body of `POST /synthesize` (lines 163-255): `text` / `gender` /
`contentLanguage`, each `none` when the JSON field is absent. -/
structure NarrationRequest where
  text : Option String
  gender : Option String
  contentLanguage : Option String
deriving DecidableEq

/-- The `POST /synthesize` handler (lines 163-255) over an upstream oracle
giving each attempt's result.  Validation (lines 169-171), voice resolution
(line 173), style prompt (lines 177-182), the two-attempt loop with one
inter-attempt delay (lines 184-236), the final rethrow of the last error and
its rewrite (lines 238-253). -/
def handleSynthesize (req : NarrationRequest)
    (upstream : Nat → Except String GenResponse) : Outcome :=
  match req.text with
  | none => ⟨.badRequest "Text is required", [], 0⟩
  | some text =>
    if text = "" then ⟨.badRequest "Text is required", [], 0⟩
    else
      let gender := req.gender.getD "neutral"
      let contentLanguage := req.contentLanguage.getD "es-latam"
      let voiceName := resolveVoice contentLanguage gender
      let fullText := stylePrompt contentLanguage ++ " " ++ text
      let call : TTSCall := ⟨fullText, voiceName, REQUEST_TIMEOUT_MS⟩
      match attemptResult upstream 1 with
      | .ok (audio, mime) => ⟨.ok audio mime voiceName contentLanguage, [call], 0⟩
      | .error _ =>
        match attemptResult upstream 2 with
        | .ok (audio, mime) =>
          ⟨.ok audio mime voiceName contentLanguage, [call, call], 1⟩
        | .error e2 => ⟨.serverError (userMessage e2), [call, call], 1⟩

/-- C3: a request whose `text` is absent or empty gets the 400 response
`Text is required` and performs zero outbound synthesis calls, for every
upstream; and any request outcome that made at least one outbound call had a
non-empty text, i.e. the external call is attempted only for non-empty text. -/
theorem empty_text_rejected (req : NarrationRequest)
    (upstream : Nat → Except String GenResponse)
    (h : req.text = none ∨ req.text = some "") :
    ((handleSynthesize req upstream).response = .badRequest "Text is required" ∧
        (handleSynthesize req upstream).calls = []) ∧
      (∀ (req2 : NarrationRequest) (up2 : Nat → Except String GenResponse),
        (handleSynthesize req2 up2).calls ≠ [] →
        ∃ t, req2.text = some t ∧ t ≠ "") := by
  constructor
  · rcases h with h | h
    · constructor <;> simp [handleSynthesize, h]
    · constructor <;> simp [handleSynthesize, h]
  · intro req2 up2 hcalls
    match ht : req2.text with
    | none => simp [handleSynthesize, ht] at hcalls
    | some t =>
      by_cases hte : t = ""
      · subst hte; simp [handleSynthesize, ht] at hcalls
      · exact ⟨t, rfl, hte⟩

/-- Witness for C3 at a concrete absent-text request and an always-failing
upstream. -/
theorem empty_text_rejected_witness :
    ((⟨none, none, none⟩ : NarrationRequest).text = none ∨
        (⟨none, none, none⟩ : NarrationRequest).text = some "") ∧
      (((handleSynthesize ⟨none, none, none⟩ fun _ => .error "boom").response
            = .badRequest "Text is required" ∧
          (handleSynthesize ⟨none, none, none⟩ fun _ => .error "boom").calls = []) ∧
        (∀ (req2 : NarrationRequest) (up2 : Nat → Except String GenResponse),
          (handleSynthesize req2 up2).calls ≠ [] →
          ∃ t, req2.text = some t ∧ t ≠ "")) :=
  ⟨Or.inl rfl,
    empty_text_rejected ⟨none, none, none⟩ (fun _ => .error "boom") (Or.inl rfl)⟩

/-- C4: for every valid request, at most 2 outbound attempts are made, any
kind of attempt failure (thrown upstream error or audio-less response, both
covered by `attemptResult`) consumes one attempt identically, and: success at
attempt 1 gives a 200 after exactly 1 call and 0 delays; failure then success
gives a 200 after exactly 2 calls and 1 delay; two failures give a 500 after
exactly 2 calls and 1 delay — never more. -/
theorem retry_contract (req : NarrationRequest)
    (upstream : Nat → Except String GenResponse)
    (t : String) (ht : req.text = some t) (hne : t ≠ "") :
    (handleSynthesize req upstream).calls.length ≤ 2 ∧
      (∀ p, attemptResult upstream 1 = .ok p →
        (handleSynthesize req upstream).calls.length = 1 ∧
          (handleSynthesize req upstream).delays = 0 ∧
          ∃ a m v l, (handleSynthesize req upstream).response = .ok a m v l) ∧
      (∀ e p, attemptResult upstream 1 = .error e →
        attemptResult upstream 2 = .ok p →
        (handleSynthesize req upstream).calls.length = 2 ∧
          (handleSynthesize req upstream).delays = 1 ∧
          ∃ a m v l, (handleSynthesize req upstream).response = .ok a m v l) ∧
      (∀ e1 e2, attemptResult upstream 1 = .error e1 →
        attemptResult upstream 2 = .error e2 →
        (handleSynthesize req upstream).calls.length = 2 ∧
          (handleSynthesize req upstream).delays = 1 ∧
          (handleSynthesize req upstream).response
            = .serverError (userMessage e2)) := by
  match h1 : attemptResult upstream 1, h2 : attemptResult upstream 2 with
  | .ok (a, m), _ =>
    refine ⟨?_, ?_, ?_, ?_⟩ <;>
      simp [handleSynthesize, ht, hne, h1]
  | .error e, .ok (a, m) =>
    refine ⟨?_, ?_, ?_, ?_⟩ <;>
      simp [handleSynthesize, ht, hne, h1, h2]
  | .error e, .error e2 =>
    refine ⟨?_, ?_, ?_, ?_⟩ <;>
      simp [handleSynthesize, ht, hne, h1, h2]

/-- Witness for C4 at a concrete request and an always-failing upstream. -/
theorem retry_contract_witness :
    (⟨some "hola", none, none⟩ : NarrationRequest).text = some "hola" ∧
      ("hola" : String) ≠ "" ∧
      ((handleSynthesize ⟨some "hola", none, none⟩
            fun _ => .error "boom").calls.length ≤ 2 ∧
        (∀ p, attemptResult (fun _ => .error "boom") 1 = .ok p →
          (handleSynthesize ⟨some "hola", none, none⟩
              fun _ => .error "boom").calls.length = 1 ∧
            (handleSynthesize ⟨some "hola", none, none⟩
                fun _ => .error "boom").delays = 0 ∧
            ∃ a m v l, (handleSynthesize ⟨some "hola", none, none⟩
                fun _ => .error "boom").response = .ok a m v l) ∧
        (∀ e p, attemptResult (fun _ => .error "boom") 1 = .error e →
          attemptResult (fun _ => .error "boom") 2 = .ok p →
          (handleSynthesize ⟨some "hola", none, none⟩
              fun _ => .error "boom").calls.length = 2 ∧
            (handleSynthesize ⟨some "hola", none, none⟩
                fun _ => .error "boom").delays = 1 ∧
            ∃ a m v l, (handleSynthesize ⟨some "hola", none, none⟩
                fun _ => .error "boom").response = .ok a m v l) ∧
        (∀ e1 e2, attemptResult (fun _ => .error "boom") 1 = .error e1 →
          attemptResult (fun _ => .error "boom") 2 = .error e2 →
          (handleSynthesize ⟨some "hola", none, none⟩
              fun _ => .error "boom").calls.length = 2 ∧
            (handleSynthesize ⟨some "hola", none, none⟩
                fun _ => .error "boom").delays = 1 ∧
            (handleSynthesize ⟨some "hola", none, none⟩
                fun _ => .error "boom").response
              = .serverError (userMessage e2))) :=
  ⟨rfl, by decide,
    retry_contract ⟨some "hola", none, none⟩ (fun _ => .error "boom") "hola"
      rfl (by decide)⟩

/-- C6: when both attempts fail, the 500 body carries the LAST attempt's
message rewritten by `userMessage`, which yields exactly one of three
user-facing forms: the fixed connection message when the message contains
`fetch failed` or `ECONNRESET`; else the fixed timeout message when it
contains `timeout` or `aborted`; else the raw message unchanged. -/
theorem error_rewrite (req : NarrationRequest)
    (upstream : Nat → Except String GenResponse)
    (t e1 e2 : String) (ht : req.text = some t) (hne : t ≠ "")
    (h1 : attemptResult upstream 1 = .error e1)
    (h2 : attemptResult upstream 2 = .error e2) :
    (handleSynthesize req upstream).response = .serverError (userMessage e2) ∧
      (∀ m, (strIncludes m "fetch failed" || strIncludes m "ECONNRESET") = true →
        userMessage m = "Connection to Gemini API failed. Please try again.") ∧
      (∀ m, (strIncludes m "fetch failed" || strIncludes m "ECONNRESET") = false →
        (strIncludes m "timeout" || strIncludes m "aborted") = true →
        userMessage m = "Request timed out. The text might be too long.") ∧
      (∀ m, (strIncludes m "fetch failed" || strIncludes m "ECONNRESET") = false →
        (strIncludes m "timeout" || strIncludes m "aborted") = false →
        userMessage m = m) := by
  refine ⟨?_, ?_, ?_, ?_⟩
  · simp [handleSynthesize, ht, hne, h1, h2]
  · intro m hm; simp [userMessage, hm]
  · intro m hm0 hm1; simp [userMessage, hm0, hm1]
  · intro m hm0 hm1; simp [userMessage, hm0, hm1]

/-- Witness for C6 at an upstream that always throws a connection error. -/
theorem error_rewrite_witness :
    (⟨some "hi", none, none⟩ : NarrationRequest).text = some "hi" ∧
      ("hi" : String) ≠ "" ∧
      attemptResult (fun _ => .error "fetch failed: socket hang up") 1
          = .error "fetch failed: socket hang up" ∧
      attemptResult (fun _ => .error "fetch failed: socket hang up") 2
          = .error "fetch failed: socket hang up" ∧
      ((handleSynthesize ⟨some "hi", none, none⟩
            fun _ => .error "fetch failed: socket hang up").response
          = .serverError (userMessage "fetch failed: socket hang up") ∧
        (∀ m, (strIncludes m "fetch failed" || strIncludes m "ECONNRESET") = true →
          userMessage m = "Connection to Gemini API failed. Please try again.") ∧
        (∀ m, (strIncludes m "fetch failed" || strIncludes m "ECONNRESET") = false →
          (strIncludes m "timeout" || strIncludes m "aborted") = true →
          userMessage m = "Request timed out. The text might be too long.") ∧
        (∀ m, (strIncludes m "fetch failed" || strIncludes m "ECONNRESET") = false →
          (strIncludes m "timeout" || strIncludes m "aborted") = false →
          userMessage m = m)) :=
  ⟨rfl, by decide, rfl, rfl,
    error_rewrite ⟨some "hi", none, none⟩
      (fun _ => .error "fetch failed: socket hang up") "hi"
      "fetch failed: socket hang up" "fetch failed: socket hang up"
      rfl (by decide) rfl rfl⟩

/-- C7: for every valid request, every outbound call submits exactly the
language-selected fixed style phrase, a space, then the user's original text;
the phrase is one of exactly two hardcoded ones; and the call carries only
the full text, the resolved voice and the fixed deadline — no style
configuration object derived from the request. -/
theorem style_prompt_prepended (req : NarrationRequest)
    (upstream : Nat → Except String GenResponse)
    (t : String) (ht : req.text = some t) (hne : t ≠ "") :
    (∀ c ∈ (handleSynthesize req upstream).calls,
        c.fullText
            = stylePrompt (req.contentLanguage.getD "es-latam") ++ " " ++ t ∧
          c.voiceName = resolveVoice (req.contentLanguage.getD "es-latam")
              (req.gender.getD "neutral") ∧
          c.timeoutMs = REQUEST_TIMEOUT_MS) ∧
      (∀ lang, stylePrompt lang
            = "Habla en un susurro suave y cercano, con un ritmo muy lento, pausas prolongadas entre frases y un tono cálido tipo ASMR:" ∨
          stylePrompt lang
            = "Speak in a soft whisper, very slow rhythm, long pauses between phrases, and a warm tone like ASMR:") := by
  constructor
  · intro c hc
    match h1 : attemptResult upstream 1, h2 : attemptResult upstream 2 with
    | .ok (a, m), _ =>
      simp [handleSynthesize, ht, hne, h1] at hc
      subst hc; exact ⟨rfl, rfl, rfl⟩
    | .error e, .ok (a, m) =>
      simp [handleSynthesize, ht, hne, h1, h2] at hc
      subst hc; exact ⟨rfl, rfl, rfl⟩
    | .error e, .error e2 =>
      simp [handleSynthesize, ht, hne, h1, h2] at hc
      subst hc; exact ⟨rfl, rfl, rfl⟩
  · intro lang
    by_cases hl : lang = "es-latam"
    · exact Or.inl (by simp [stylePrompt, hl])
    · exact Or.inr (by simp [stylePrompt, hl])

/-- Witness for C7 at a concrete English request with a failing upstream. -/
theorem style_prompt_prepended_witness :
    (⟨some "breathe", some "female", some "en"⟩ : NarrationRequest).text
        = some "breathe" ∧
      ("breathe" : String) ≠ "" ∧
      ((∀ c ∈ (handleSynthesize ⟨some "breathe", some "female", some "en"⟩
              fun _ => .error "boom").calls,
          c.fullText = stylePrompt
                ((some "en" : Option String).getD "es-latam") ++ " " ++ "breathe" ∧
            c.voiceName = resolveVoice ((some "en" : Option String).getD "es-latam")
                ((some "female" : Option String).getD "neutral") ∧
            c.timeoutMs = REQUEST_TIMEOUT_MS) ∧
        (∀ lang, stylePrompt lang
              = "Habla en un susurro suave y cercano, con un ritmo muy lento, pausas prolongadas entre frases y un tono cálido tipo ASMR:" ∨
            stylePrompt lang
              = "Speak in a soft whisper, very slow rhythm, long pauses between phrases, and a warm tone like ASMR:")) :=
  ⟨rfl, by decide,
    style_prompt_prepended ⟨some "breathe", some "female", some "en"⟩
      (fun _ => .error "boom") "breathe" rfl (by decide)⟩

/-- C5 counterexample: an upstream payload declaring the empty MIME type ""
(which contains neither "L16" nor "pcm") is NOT passed through unchanged:
line 204's `||` treats the empty string like an absent field, defaults the
MIME type to `audio/L16;rate=24000`, and WAV-encodes the payload. -/
theorem mime_passthrough_counterexample :
    (strIncludes "" "L16" || strIncludes "" "pcm") = false ∧
      extractAudio ⟨some [⟨some ⟨some [⟨some ⟨some "", some [0, 1]⟩⟩]⟩⟩]⟩
        = .ok (wavHeader 2 ++ [0, 1], "audio/wav") ∧
      extractAudio ⟨some [⟨some ⟨some [⟨some ⟨some "", some [0, 1]⟩⟩]⟩⟩]⟩
        ≠ .ok ([0, 1], "") := by
  have hw : pcmToWav [0, 1] = some (wavHeader 2 ++ [0, 1]) :=
    pcmToWav_eq [0, 1] (by decide)
  have hs : (strIncludes "audio/L16;rate=24000" "L16"
      || strIncludes "audio/L16;rate=24000" "pcm") = true := by decide
  refine ⟨by decide, ?_, ?_⟩
  · simp [extractAudio, hs, hw]
  · simp [extractAudio, hs, hw]

/-- C5 amended: an "L16" MIME type triggers WAV encoding with result MIME
`audio/wav`; a NON-EMPTY declared MIME type containing neither "L16" nor
"pcm" passes the payload and its MIME type through unchanged (an empty
declared MIME type is treated like an absent one and defaults to the raw-PCM
type, so it is WAV-encoded instead). -/
theorem mime_handling (rest : List Candidate) (ps : List ResponsePart)
    (p : ResponsePart) (inline : InlineData) (m : String) (bs : List Nat)
    (hfind : ps.find? (fun part => part.inlineData.isSome) = some p)
    (hinl : p.inlineData = some inline)
    (hm : inline.mimeType = some m)
    (hd : inline.data = some bs)
    (hbs : bs ≠ []) :
    (strIncludes m "L16" = true →
      ∀ wav, pcmToWav bs = some wav →
        extractAudio ⟨some (⟨some ⟨some ps⟩⟩ :: rest)⟩
          = .ok (wav, "audio/wav")) ∧
      (m ≠ "" → strIncludes m "L16" = false → strIncludes m "pcm" = false →
        extractAudio ⟨some (⟨some ⟨some ps⟩⟩ :: rest)⟩ = .ok (bs, m)) := by
  constructor
  · intro hL16 wav hw
    have hm0 : m ≠ "" := by
      intro he; rw [he] at hL16; exact absurd hL16 (by decide)
    simp [extractAudio, hfind, hinl, hm, hd, hbs, hm0, hL16, hw]
  · intro hm0 hL16 hpcm
    simp [extractAudio, hfind, hinl, hm, hd, hbs, hm0, hL16, hpcm]

/-- Witness for the amended C5 at a non-PCM payload `audio/mpeg`. -/
theorem mime_handling_witness :
    ([⟨some ⟨some "audio/mpeg", some [9]⟩⟩] :
          List ResponsePart).find? (fun part => part.inlineData.isSome)
        = some ⟨some ⟨some "audio/mpeg", some [9]⟩⟩ ∧
      (⟨some ⟨some "audio/mpeg", some [9]⟩⟩ : ResponsePart).inlineData
        = some ⟨some "audio/mpeg", some [9]⟩ ∧
      (⟨some "audio/mpeg", some [9]⟩ : InlineData).mimeType = some "audio/mpeg" ∧
      (⟨some "audio/mpeg", some [9]⟩ : InlineData).data = some [9] ∧
      ([9] : List Nat) ≠ [] ∧
      ((strIncludes "audio/mpeg" "L16" = true →
        ∀ wav, pcmToWav [9] = some wav →
          extractAudio ⟨some (⟨some ⟨some [⟨some ⟨some "audio/mpeg", some [9]⟩⟩]⟩⟩ :: [])⟩
            = .ok (wav, "audio/wav")) ∧
      (("audio/mpeg" : String) ≠ "" → strIncludes "audio/mpeg" "L16" = false →
        strIncludes "audio/mpeg" "pcm" = false →
        extractAudio ⟨some (⟨some ⟨some [⟨some ⟨some "audio/mpeg", some [9]⟩⟩]⟩⟩ :: [])⟩
          = .ok ([9], "audio/mpeg"))) :=
  ⟨by decide, rfl, rfl, rfl, by decide,
    mime_handling [] [⟨some ⟨some "audio/mpeg", some [9]⟩⟩]
      ⟨some ⟨some "audio/mpeg", some [9]⟩⟩ ⟨some "audio/mpeg", some [9]⟩
      "audio/mpeg" [9] (by decide) rfl rfl rfl (by decide)⟩

/-- C9: a payload with audio data but no declared MIME type gets the default
`audio/L16;rate=24000`, which contains "L16", so it is WAV-encoded and
returned as `audio/wav` rather than passed through. -/
theorem absent_mime_defaults_to_pcm (rest : List Candidate)
    (ps : List ResponsePart) (p : ResponsePart) (inline : InlineData)
    (bs wav : List Nat)
    (hfind : ps.find? (fun part => part.inlineData.isSome) = some p)
    (hinl : p.inlineData = some inline)
    (hm : inline.mimeType = none)
    (hd : inline.data = some bs)
    (hbs : bs ≠ [])
    (hw : pcmToWav bs = some wav) :
    extractAudio ⟨some (⟨some ⟨some ps⟩⟩ :: rest)⟩ = .ok (wav, "audio/wav") ∧
      strIncludes "audio/L16;rate=24000" "L16" = true := by
  have hs : (strIncludes "audio/L16;rate=24000" "L16"
      || strIncludes "audio/L16;rate=24000" "pcm") = true := by decide
  exact ⟨by simp [extractAudio, hfind, hinl, hm, hd, hbs, hw, hs], by decide⟩

/-- Witness for C9 at a concrete two-byte payload with absent MIME type. -/
theorem absent_mime_defaults_to_pcm_witness :
    ([⟨some ⟨none, some [3, 4]⟩⟩] :
          List ResponsePart).find? (fun part => part.inlineData.isSome)
        = some ⟨some ⟨none, some [3, 4]⟩⟩ ∧
      (⟨some ⟨none, some [3, 4]⟩⟩ : ResponsePart).inlineData
        = some ⟨none, some [3, 4]⟩ ∧
      (⟨none, some [3, 4]⟩ : InlineData).mimeType = none ∧
      (⟨none, some [3, 4]⟩ : InlineData).data = some [3, 4] ∧
      ([3, 4] : List Nat) ≠ [] ∧
      pcmToWav [3, 4] = some (wavHeader 2 ++ [3, 4]) ∧
      (extractAudio ⟨some (⟨some ⟨some [⟨some ⟨none, some [3, 4]⟩⟩]⟩⟩ :: [])⟩
          = .ok (wavHeader 2 ++ [3, 4], "audio/wav") ∧
        strIncludes "audio/L16;rate=24000" "L16" = true) :=
  ⟨by decide, rfl, rfl, rfl, by decide, pcmToWav_eq [3, 4] (by decide),
    absent_mime_defaults_to_pcm [] [⟨some ⟨none, some [3, 4]⟩⟩]
      ⟨some ⟨none, some [3, 4]⟩⟩ ⟨none, some [3, 4]⟩ [3, 4]
      (wavHeader 2 ++ [3, 4]) (by decide) rfl rfl rfl (by decide)
      (pcmToWav_eq [3, 4] (by decide))⟩

/-- C10: extraction looks only at the first candidate (dropping the rest
changes nothing), and when the first inlineData-carrying part of that
candidate has no data field the attempt fails with the fixed message, no
matter what later parts or candidates carry. -/
theorem first_part_only (c : Candidate) (cs rest : List Candidate)
    (ps : List ResponsePart) (p : ResponsePart) (inline : InlineData)
    (hfind : ps.find? (fun part => part.inlineData.isSome) = some p)
    (hinl : p.inlineData = some inline)
    (hd : inline.data = none) :
    extractAudio ⟨some (c :: cs)⟩ = extractAudio ⟨some [c]⟩ ∧
      extractAudio ⟨some (⟨some ⟨some ps⟩⟩ :: rest)⟩
        = .error "No audio data found in response" := by
  exact ⟨rfl, by simp [extractAudio, hfind, hinl, hd]⟩

/-- Witness for C10: the selected first part has no data while a later part
and a later candidate both carry audio data, and the attempt still fails. -/
theorem first_part_only_witness :
    ([⟨some ⟨some "audio/wav", none⟩⟩, ⟨some ⟨some "audio/wav", some [7]⟩⟩] :
          List ResponsePart).find? (fun part => part.inlineData.isSome)
        = some ⟨some ⟨some "audio/wav", none⟩⟩ ∧
      (⟨some ⟨some "audio/wav", none⟩⟩ : ResponsePart).inlineData
        = some ⟨some "audio/wav", none⟩ ∧
      (⟨some "audio/wav", none⟩ : InlineData).data = none ∧
      (extractAudio ⟨some (⟨none⟩ :: [⟨some ⟨some []⟩⟩])⟩
          = extractAudio ⟨some [⟨none⟩]⟩ ∧
        extractAudio ⟨some (⟨some ⟨some [⟨some ⟨some "audio/wav", none⟩⟩,
              ⟨some ⟨some "audio/wav", some [7]⟩⟩]⟩⟩
            :: [⟨some ⟨some [⟨some ⟨some "audio/wav", some [8]⟩⟩]⟩⟩])⟩
          = .error "No audio data found in response") :=
  ⟨by decide, rfl, rfl,
    first_part_only ⟨none⟩ [⟨some ⟨some []⟩⟩]
      [⟨some ⟨some [⟨some ⟨some "audio/wav", some [8]⟩⟩]⟩⟩]
      [⟨some ⟨some "audio/wav", none⟩⟩, ⟨some ⟨some "audio/wav", some [7]⟩⟩]
      ⟨some ⟨some "audio/wav", none⟩⟩ ⟨some "audio/wav", none⟩
      (by decide) rfl rfl⟩
